import Mathlib

/-!
Shallow embedding of the TG-auto-reaction-bot server (src/unnamed/part_001,
src/server.js, schema in src/unnamed/part_000).

The server keeps an in-process `Map` called `botInstances` from bot id to a
running Telegraf adapter instance, a Supabase database with tables `bots`,
`bot_users`, `notifications` and `broadcasts`, and Express handlers.  We model
the database as explicit lists of rows, the registry as an association list
with JavaScript `Map` semantics (`set` replaces in place or appends, `delete`
filters, `get`/`has` search by key), and each handler as a pure function over
that state.  The environment (which `bot.launch()` calls succeed, which
`sendMessage` calls throw) is passed in as boolean-valued oracles.
-/

namespace TGBot

/-- A row of the `bots` table (src/unnamed/part_000, lines 3-14).
`force_join_channel` is nullable; empty strings are JavaScript-falsy and are
modelled explicitly where the code tests truthiness. -/
structure BotRow where
  id : Nat
  token : String
  owner : String
  title : String
  enabled : Bool
  force_join_channel : Option String
  notify_new_user : Bool
  reaction_enabled : Bool
  reaction_emoji : String
  deriving DecidableEq

/-- A row of the `bot_users` table (src/unnamed/part_000, lines 16-25);
`unique(bot_id, telegram_id)`. -/
structure SubRow where
  bot_id : Nat
  telegram_id : String
  username : String
  first_name : String
  last_name : String
  deriving DecidableEq

/-- A row of the `notifications` table (src/unnamed/part_000, lines 34-41). -/
structure NotifRow where
  bot_id : Nat
  telegram_id : String
  username : String
  deriving DecidableEq

/-- A row of the `broadcasts` table (src/unnamed/part_000, lines 27-32). -/
structure BcastRow where
  bot_id : Nat
  message : String
  deriving DecidableEq

/-- The Supabase database state: the four tables the handlers touch. -/
structure Db where
  bots : List BotRow
  bot_users : List SubRow
  notifications : List NotifRow
  broadcasts : List BcastRow
  deriving DecidableEq

/-- A Telegram user as seen in `ctx.from`; optional fields model fields that
may be `undefined` in the Telegram payload. -/
structure TgUser where
  id : Nat
  username : Option String
  first_name : Option String
  last_name : Option String
  deriving DecidableEq

/-- The value stored in the `botInstances` Map: `{ bot, token }`
(src/unnamed/part_001, line 94). -/
structure Instance where
  botId : Nat
  token : String
  deriving DecidableEq

/-- JavaScript truthiness of a possibly-null string: `null`/`undefined` and
`''` are falsy. -/
def jsTruthyStr : Option String → Bool
  | none => false
  | some s => !(s == "")

/- JavaScript `Map` operations on the association-list model of
`botInstances`. `Map.set` replaces the value of an existing key in place and
otherwise appends; `Map.delete` removes the key; `Map.get`/`Map.has` search. -/

def mapHas (m : List (Nat × Instance)) (k : Nat) : Bool :=
  m.any (fun p => p.1 == k)

def mapGet (m : List (Nat × Instance)) (k : Nat) : Option Instance :=
  (m.find? (fun p => p.1 == k)).map Prod.snd

def mapSet (m : List (Nat × Instance)) (k : Nat) (v : Instance) :
    List (Nat × Instance) :=
  if mapHas m k then m.map (fun p => if p.1 == k then (k, v) else p)
  else m ++ [(k, v)]

def mapDelete (m : List (Nat × Instance)) (k : Nat) : List (Nat × Instance) :=
  m.filter (fun p => !(p.1 == k))

/-- Number of registry entries whose key is `k`. -/
def countId (m : List (Nat × Instance)) (k : Nat) : Nat :=
  (m.filter (fun p => p.1 == k)).length

/-- The keys of the registry are pairwise distinct. -/
def keysNodup (m : List (Nat × Instance)) : Prop :=
  (m.map Prod.fst).Nodup

lemma mapHas_iff_mem (m : List (Nat × Instance)) (k : Nat) :
    mapHas m k = true ↔ k ∈ m.map Prod.fst := by
  simp [mapHas, List.any_eq_true, List.mem_map, beq_iff_eq]

lemma countId_eq_count (m : List (Nat × Instance)) (k : Nat) :
    countId m k = (m.map Prod.fst).count k := by
  unfold countId
  rw [List.count, List.countP_map, ← List.countP_eq_length_filter]
  rfl

lemma countId_le_one_of_nodup (m : List (Nat × Instance)) (k : Nat)
    (h : keysNodup m) : countId m k ≤ 1 := by
  rw [countId_eq_count]
  exact List.nodup_iff_count_le_one.mp h k

lemma keys_mapSet_of_has (m : List (Nat × Instance)) (k : Nat) (v : Instance)
    (h : mapHas m k = true) :
    (mapSet m k v).map Prod.fst = m.map Prod.fst := by
  simp [mapSet, h, List.map_map]
  intro a b _
  by_cases hp : a = k
  · simp [hp]
  · simp [hp]

lemma keys_mapSet_of_not_has (m : List (Nat × Instance)) (k : Nat)
    (v : Instance) (h : mapHas m k = false) :
    (mapSet m k v).map Prod.fst = m.map Prod.fst ++ [k] := by
  simp [mapSet, h]

lemma keysNodup_mapSet (m : List (Nat × Instance)) (k : Nat) (v : Instance)
    (h : keysNodup m) : keysNodup (mapSet m k v) := by
  by_cases hh : mapHas m k = true
  · unfold keysNodup
    rw [keys_mapSet_of_has m k v hh]
    exact h
  · have hf : mapHas m k = false := by
      cases hq : mapHas m k
      · rfl
      · exact absurd hq hh
    unfold keysNodup
    rw [keys_mapSet_of_not_has m k v hf]
    have hnm : k ∉ m.map Prod.fst := by
      intro hmem
      exact hh ((mapHas_iff_mem m k).2 hmem)
    have h' : (m.map Prod.fst).Nodup := h
    simp [List.nodup_append, h', hnm]

lemma keysNodup_mapDelete (m : List (Nat × Instance)) (k : Nat)
    (h : keysNodup m) : keysNodup (mapDelete m k) := by
  unfold keysNodup mapDelete
  exact List.Nodup.sublist (List.Sublist.map Prod.fst (List.filter_sublist m)) h

lemma mapGet_eq_none_of_not_has (m : List (Nat × Instance)) (k : Nat)
    (h : mapHas m k = false) : mapGet m k = none := by
  unfold mapGet
  have : m.find? (fun p => p.1 == k) = none := by
    rw [List.find?_eq_none]
    intro p hp
    intro hb
    have : mapHas m k = true := by
      unfold mapHas
      rw [List.any_eq_true]
      exact ⟨p, hp, hb⟩
    rw [this] at h
    exact Bool.noConfusion h
  rw [this]
  rfl

lemma mapGet_mapDelete (m : List (Nat × Instance)) (k : Nat) :
    mapGet (mapDelete m k) k = none := by
  unfold mapGet
  have : (mapDelete m k).find? (fun p => p.1 == k) = none := by
    rw [List.find?_eq_none]
    intro p hp hb
    unfold mapDelete at hp
    rw [List.mem_filter] at hp
    rw [hb] at hp
    exact Bool.noConfusion hp.2
  rw [this]
  rfl

lemma mem_keys_mapSet (m : List (Nat × Instance)) (k k' : Nat) (v : Instance)
    (h : k' ∈ (mapSet m k v).map Prod.fst) :
    k' ∈ m.map Prod.fst ∨ k' = k := by
  by_cases hh : mapHas m k = true
  · rw [keys_mapSet_of_has m k v hh] at h
    exact Or.inl h
  · have hf : mapHas m k = false := by
      cases hq : mapHas m k
      · rfl
      · exact absurd hq hh
    rw [keys_mapSet_of_not_has m k v hf] at h
    rw [List.mem_append] at h
    cases h with
    | inl h => exact Or.inl h
    | inr h => simp at h; exact Or.inr h

/-! ## Sequential lifecycle model

`startBot` (src/unnamed/part_001, lines 24-99) and `stopBot` (lines 101-109)
executed to completion with no interleaving.  `constructedAdapters` counts
`new Telegraf(...)` constructions.  `launchOk` is the environment oracle
saying whether `bot.launch()` resolves for a given bot row; when it rejects,
the `catch` block at lines 96-98 logs the error and the function returns
normally without inserting into `botInstances`. -/

structure SeqState where
  registry : List (Nat × Instance)
  constructedAdapters : Nat
  deriving DecidableEq

def seqInit : SeqState := ⟨[], 0⟩

/-- How one call to `startBot` ended.  All four outcomes are ordinary returns
of the JavaScript function: the launch failure is caught inside `startBot`
(lines 96-98), so no rejection ever escapes to the caller. -/
inductive StartOutcome
  | noToken
  | alreadyRunning
  | launched
  | launchFailed
  deriving DecidableEq

/-- `startBot(botRow)` with its observable outcome.  Mirrors, in order:
the `!botRow.token` guard (line 25), the `botInstances.has(botId)` guard
(line 27), adapter construction (line 29), and the `await bot.launch()` /
`botInstances.set` sequence (lines 92-98). -/
def startBotR (launchOk : BotRow → Bool) (s : SeqState) (row : BotRow) :
    SeqState × StartOutcome :=
  if row.token == "" then (s, StartOutcome.noToken)
  else if mapHas s.registry row.id then (s, StartOutcome.alreadyRunning)
  else
    let s1 : SeqState := { s with constructedAdapters := s.constructedAdapters + 1 }
    if launchOk row then
      ({ s1 with registry := mapSet s1.registry row.id ⟨row.id, row.token⟩ },
       StartOutcome.launched)
    else (s1, StartOutcome.launchFailed)

def startBot (launchOk : BotRow → Bool) (s : SeqState) (row : BotRow) :
    SeqState :=
  (startBotR launchOk s row).1

/-- `stopBot(botId)` (src/unnamed/part_001, lines 101-109): no-op when the id
is absent; otherwise `inst.bot.stop()` runs inside `try { } catch (e) {}` —
whether or not it throws (` stopThrows`), the entry is deleted. -/
def stopBot ( stopThrows : Bool) (s : SeqState) (botId : Nat) : SeqState :=
  if mapHas s.registry botId then
    { s with registry := mapDelete s.registry botId }
  else s

/-- One registry operation of a sequential schedule. -/
inductive Op
  | start (row : BotRow)
  | stop (botId : Nat) ( stopThrows : Bool)

def applyOp (launchOk : BotRow → Bool) (s : SeqState) : Op → SeqState
  | Op.start row => startBot launchOk s row
  | Op.stop botId st => stopBot st s botId

def runOps (launchOk : BotRow → Bool) (s : SeqState) : List Op → SeqState
  | [] => s
  | o :: rest => runOps launchOk (applyOp launchOk s o) rest

/-- `loadAndStartEnabledBots` (src/unnamed/part_001, lines 112-120): query
the `bots` table filtered on `enabled = true` and call `startBot` on each row
in order.  It never calls `stopBot`. -/
def loadAndStartEnabledBots (launchOk : BotRow → Bool) (db : Db)
    (s : SeqState) : SeqState :=
  runOps launchOk s ((db.bots.filter (fun b => b.enabled)).map Op.start)

/-! ## Database operations -/

/-- `supabase.from('bots').select('*').eq('id', id).single()`:
none models both a query error and an absent row. -/
def dbGetBot (db : Db) (botId : Nat) : Option BotRow :=
  db.bots.find? (fun b => b.id == botId)

/-- `supabase.from('bots').update(payload).eq('id', id)`: apply the field
update `f` to every row whose id matches. -/
def dbUpdateBot (db : Db) (botId : Nat) (f : BotRow → BotRow) : Db :=
  { db with bots := db.bots.map (fun b => if b.id == botId then f b else b) }

/-- Does a `bot_users` row match the upsert key `(bot_id, telegram_id)`? -/
def subKey (a : SubRow) (botId : Nat) (tid : String) : Bool :=
  a.bot_id == botId && a.telegram_id == tid

/-- `supabase.from('bot_users').upsert(..., onConflict: [bot_id, telegram_id])`
(src/unnamed/part_001, lines 36-44): update in place on key conflict,
otherwise insert. -/
def upsertBotUser (l : List SubRow) (r : SubRow) : List SubRow :=
  if l.any (fun a => subKey a r.bot_id r.telegram_id) then
    l.map (fun a => if subKey a r.bot_id r.telegram_id then r else a)
  else l ++ [r]

/-- Number of `bot_users` rows with the given key. -/
def countSubKey (l : List SubRow) (botId : Nat) (tid : String) : Nat :=
  (l.filter (fun a => subKey a botId tid)).length

/-! ## Adapter event handlers -/

/-- Result of the `/start` (subscribe) handler: the database after the upsert
and optional notification insert, and the force-join reminder text that was
sent (if any; its delivery failure is swallowed at line 59). -/
structure SubscribeOut where
  db : Db
  reminder : Option String
  deriving DecidableEq

/-- The `bot.start` handler (src/unnamed/part_001, lines 32-64).  Note that it
closes over `botRow` — the configuration row passed to `startBot` when the
instance was launched — and reads `notify_new_user` and `force_join_channel`
from that snapshot, not from the database. -/
def subscribeHandler (botRow : BotRow) (db : Db) (u : TgUser) : SubscribeOut :=
  let r : SubRow :=
    ⟨botRow.id, toString u.id, u.username.getD "", u.first_name.getD "",
     u.last_name.getD ""⟩
  let db1 : Db := { db with bot_users := upsertBotUser db.bot_users r }
  let db2 : Db :=
    if botRow.notify_new_user then
      { db1 with notifications :=
          db1.notifications ++ [⟨botRow.id, toString u.id, u.username.getD ""⟩] }
    else db1
  let rem : Option String :=
    match botRow.force_join_channel with
    | some c => if c == "" then none
                else some ("Please join this channel first: " ++ c)
    | none => none
  ⟨db2, rem⟩

/-- The `bot.on('message')` handler (src/unnamed/part_001, lines 67-85): it
re-reads the bot row from the database (line 70), returns without replying on
a fetch error or missing row (line 71), and otherwise replies with
`fresh.reaction_emoji || '❤️'` iff `fresh.reaction_enabled` (lines 72-76).
The returned value is the reply text attempted, if any. -/
def messageHandler (db : Db) (botId : Nat) : Option String :=
  match dbGetBot db botId with
  | none => none
  | some fresh =>
    if fresh.reaction_enabled then
      some (if fresh.reaction_emoji == "" then "❤️" else fresh.reaction_emoji)
    else none

/-- A stream of inbound messages processed by the message handler.  Each
reply attempt sits inside its own `try { } catch { }` (lines 74-79), so a
failed send (`sendOk msg = false`) never stops later messages: every message
yields exactly one entry, true iff a reaction was delivered for it. -/
def processMessages (db : Db) (botId : Nat) (sendOk : Nat → Bool)
    (msgs : List Nat) : List Bool :=
  msgs.map (fun msg =>
    match messageHandler db botId with
    | some _ => sendOk msg
    | none => false)

/-! ## HTTP handlers -/

/-- The stateless authorization check used by every mutating route:
`admin_password === ADMIN_PASSWORD || owner === botRow.owner`
(src/unnamed/part_001, lines 166, 180, 198).  An absent field (`undefined`)
compares unequal to any string. -/
def authorized (adminSecret : String) (admin_password owner : Option String)
    (storedOwner : String) : Bool :=
  admin_password == some adminSecret || owner == some storedOwner

/-- HTTP responses of the modelled endpoints. -/
inductive ApiResp
  | badRequest
  | notFound
  | forbidden
  | notRunning
  | ok
  | okCounts (attempted sent : Nat)
  | okBot (row : BotRow)
  deriving DecidableEq

/-- `POST /api/bots/:id/toggle` (src/unnamed/part_001, lines 175-189). -/
def toggleHandler (adminSecret : String) (launchOk : BotRow → Bool)
    ( stopThrows : Bool) (s : SeqState) (db : Db) (botId : Nat) (enable : Bool)
    (admin_password owner : Option String) : SeqState × Db × ApiResp :=
  match dbGetBot db botId with
  | none => (s, db, ApiResp.notFound)
  | some botRow =>
    if authorized adminSecret admin_password owner botRow.owner then
      let db2 := dbUpdateBot db botId (fun b => { b with enabled := enable })
      if enable then
        (startBot launchOk s { botRow with enabled := true }, db2, ApiResp.ok)
      else (stopBot stopThrows s botId, db2, ApiResp.ok)
    else (s, db, ApiResp.forbidden)

/-- `POST /api/bots/:id/settings` (src/unnamed/part_001, lines 158-172);
the update payload is modelled as a field transformer, absent as `none`. -/
def settingsHandler (adminSecret : String) (db : Db) (botId : Nat)
    (admin_password owner : Option String) (payload : Option (BotRow → BotRow)) :
    Db × ApiResp :=
  match payload with
  | none => (db, ApiResp.badRequest)
  | some f =>
    match dbGetBot db botId with
    | none => (db, ApiResp.notFound)
    | some botRow =>
      if authorized adminSecret admin_password owner botRow.owner then
        (dbUpdateBot db botId f, ApiResp.ok)
      else (db, ApiResp.forbidden)

/-- `POST /api/bots/:id/force_join` (src/server.js, lines 185-196). -/
def forceJoinHandler (adminSecret : String) (db : Db) (botId : Nat)
    (channel : Option String) (admin_password owner : Option String) :
    Db × ApiResp :=
  match dbGetBot db botId with
  | none => (db, ApiResp.notFound)
  | some botRow =>
    if authorized adminSecret admin_password owner botRow.owner then
      (dbUpdateBot db botId (fun b => { b with force_join_channel := channel }),
       ApiResp.ok)
    else (db, ApiResp.forbidden)

/-- `POST /api/bots/:id/broadcast` (src/unnamed/part_001, lines 192-215):
message-required guard, row fetch, authorization, running-instance check,
then a sequential send loop whose per-recipient failures are swallowed
(lines 207-212), one `broadcasts` insert regardless of the counts
(line 213), and an `{attempted, sent}` response (line 214). -/
def broadcastHandler (adminSecret : String) (sendOk : String → Bool)
    (s : SeqState) (db : Db) (botId : Nat) (message : String)
    (admin_password owner : Option String) : Db × ApiResp :=
  if message == "" then (db, ApiResp.badRequest)
  else
    match dbGetBot db botId with
    | none => (db, ApiResp.notFound)
    | some botRow =>
      if authorized adminSecret admin_password owner botRow.owner then
        if mapHas s.registry botId then
          let users := db.bot_users.filter (fun u => u.bot_id == botId)
          let sentCount := (users.filter (fun u => sendOk u.telegram_id)).length
          ({ db with broadcasts := db.broadcasts ++ [⟨botId, message⟩] },
           ApiResp.okCounts users.length sentCount)
        else (db, ApiResp.notRunning)
      else (db, ApiResp.forbidden)

/-- The `bots` row built by `POST /api/bots` (src/unnamed/part_001,
lines 129-138), including every JavaScript defaulting rule:
`title || ''`, `force_join_channel || null`, `!!notify_new_user`,
`reaction_enabled === undefined ? true : !!reaction_enabled`,
`reaction_emoji || '❤️'`, `enabled: true`. -/
def mkBotPayload (newId : Nat) (tk ow : String) (title fjc emoji : Option String)
    (nnu re : Option Bool) : BotRow :=
  { id := newId, token := tk, owner := ow, title := title.getD "",
    force_join_channel :=
      match fjc with
      | some c => if c == "" then none else some c
      | none => none,
    notify_new_user := nnu.getD false,
    reaction_enabled := re.getD true,
    reaction_emoji :=
      match emoji with
      | some e => if e == "" then "❤️" else e
      | none => "❤️",
    enabled := true }

/-- `POST /api/bots` (src/unnamed/part_001, lines 125-145): validate
token/owner, insert the payload row (the store assigns `newId`), then
`await startBot(data)` and respond `{ bot: data }` — the response does not
depend on whether the launch succeeded, because `startBot` never rejects. -/
def createBotHandler (launchOk : BotRow → Bool) (s : SeqState) (db : Db)
    (newId : Nat) (token owner title fjc emoji : Option String)
    (nnu re : Option Bool) : SeqState × Db × ApiResp :=
  match token, owner with
  | some tk, some ow =>
    if tk == "" || ow == "" then (s, db, ApiResp.badRequest)
    else
      let row := mkBotPayload newId tk ow title fjc emoji nnu re
      let db2 : Db := { db with bots := db.bots ++ [row] }
      (startBot launchOk s row, db2, ApiResp.okBot row)
  | _, _ => (s, db, ApiResp.badRequest)

/-! ## Interleaved model of `startBot`

The runtime is single-threaded but suspends at `await` boundaries (spec §5).
Inside `startBot` there is exactly one suspension between the
`botInstances.has(botId)` check (line 27) and the `botInstances.set` insertion
(line 94): the `await bot.launch()` call (line 93).  We model two overlapping
invocations of `startBot` for the *same* row as two threads, each advancing
through the two atomic segments that the suspension separates, under an
arbitrary interleaving schedule.  `live` counts adapter instances that have
successfully launched (and are polling); it is the quantity "running adapter
instances", distinct from the registry, which can hold at most one entry per
id by `Map` semantics. -/

inductive Phase
  | ready
  | launching
  | finished
  deriving DecidableEq

inductive Tid
  | one
  | two
  deriving DecidableEq

structure CState where
  registry : List (Nat × Instance)
  live : Nat
  p1 : Phase
  p2 : Phase
  deriving DecidableEq

def cInit : CState := ⟨[], 0, Phase.ready, Phase.ready⟩

def getPhase (s : CState) : Tid → Phase
  | Tid.one => s.p1
  | Tid.two => s.p2

def setPhase (s : CState) (t : Tid) (p : Phase) : CState :=
  match t with
  | Tid.one => { s with p1 := p }
  | Tid.two => { s with p2 := p }

/-- The synchronous prefix of one `startBot` invocation: the token guard
(line 25), the `botInstances.has` check (line 27), and — when the check
passes — adapter construction and initiation of `bot.launch()`
(lines 29-93).  This whole segment runs without suspension. -/
def stepCheck (row : BotRow) (s : CState) (t : Tid) : CState :=
  match getPhase s t with
  | Phase.ready =>
    if row.token == "" then setPhase s t Phase.finished
    else if mapHas s.registry row.id then setPhase s t Phase.finished
    else setPhase s t Phase.launching
  | _ => s

/-- Resumption after `bot.launch()` settles.  On success the adapter is now a
live polling instance and the continuation `botInstances.set(...)` (line 94)
runs in the same synchronous segment; on failure the `catch` logs and nothing
is inserted (lines 96-98). -/
def stepResume (launchOk : Bool) (row : BotRow) (s : CState) (t : Tid) :
    CState :=
  match getPhase s t with
  | Phase.launching =>
    if launchOk then
      setPhase
        { s with live := s.live + 1,
                 registry := mapSet s.registry row.id ⟨row.id, row.token⟩ }
        t Phase.finished
    else setPhase s t Phase.finished
  | _ => s

inductive CStep
  | check (t : Tid)
  | resume (t : Tid)

def runSched (launchOk : Bool) (row : BotRow) (s : CState) :
    List CStep → CState
  | [] => s
  | CStep.check t :: rest =>
      runSched launchOk row (stepCheck row s t) rest
  | CStep.resume t :: rest =>
      runSched launchOk row (stepResume launchOk row s t) rest

/-- A well-formed bot row used by the concrete interleaving runs. -/
def rowA : BotRow := ⟨1, "tok", "alice", "", true, none, false, true, "❤️"⟩

/-- The racy interleaving: both invocations run their registered-check before
either `bot.launch()` has resolved. -/
def raceSched : List CStep :=
  [CStep.check Tid.one, CStep.check Tid.two,
   CStep.resume Tid.one, CStep.resume Tid.two]

/-- The serialized interleaving: the second invocation begins only after the
first has completed its registry insertion. -/
def serialSched : List CStep :=
  [CStep.check Tid.one, CStep.resume Tid.one,
   CStep.check Tid.two, CStep.resume Tid.two]

/-! ## Concrete states used by closed theorems -/

def dbEmpty : Db := ⟨[], [], [], []⟩

/-- Environment in which every `bot.launch()` call rejects
(invalid token / network failure). -/
def launchAlwaysFails : BotRow → Bool := fun _ => false

/-- The run of `POST /api/bots` in which the freshly created bot's launch
fails: empty store, valid token and owner, failing launch environment. -/
def createFailRun : SeqState × Db × ApiResp :=
  createBotHandler launchAlwaysFails seqInit dbEmpty 1
    (some "badtoken") (some "alice") none none none none none

/-- A bot row with the reaction behavior enabled and emoji 👍. -/
def cfgReact : BotRow := ⟨1, "tok", "alice", "", true, none, false, true, "👍"⟩

def dbReact : Db := ⟨[cfgReact], [], [], []⟩

/-- A disabled bot row with a distinct id. -/
def rowOff : BotRow := ⟨2, "tok2", "carol", "", false, none, false, true, "❤️"⟩

/-- A settings-update payload turning the reaction behavior off. -/
def disableReaction : BotRow → BotRow :=
  fun b => { b with reaction_enabled := false }

/-- The database after `POST /api/bots/:id/settings` disables the reaction
for bot 1 (authorized via the admin password). -/
def dbReactOff : Db :=
  (settingsHandler "secret" dbReact 1 (some "secret") none
    (some disableReaction)).1

/-- A registry state in which bot 1 is running. -/
def regOne : SeqState := ⟨[(1, ⟨1, "tok"⟩)], 1⟩

/-- Three subscribers of bot 1. -/
def dbThree : Db :=
  ⟨[cfgReact],
   [⟨1, "10", "", "", ""⟩, ⟨1, "20", "", "", ""⟩, ⟨1, "30", "", "", ""⟩],
   [], []⟩

/-- Send environment in which the send to telegram id 20 throws. -/
def sendFails20 : String → Bool := fun t => !(t == "20")

/-- A Telegram user used in concrete runs. -/
def uBob : TgUser := ⟨7, some "bob", none, none⟩

/-- The same Telegram user subscribing again with updated profile fields. -/
def uBob2 : TgUser := ⟨7, some "bobby", some "Bob", none⟩

/-! ## Helper lemmas about the lifecycle operations -/

lemma startBot_eq (launchOk : BotRow → Bool) (s : SeqState) (row : BotRow) :
    startBot launchOk s row =
      if row.token == "" then s
      else if mapHas s.registry row.id then s
      else if launchOk row then
        { registry := mapSet s.registry row.id ⟨row.id, row.token⟩,
          constructedAdapters := s.constructedAdapters + 1 }
      else { s with constructedAdapters := s.constructedAdapters + 1 } := by
  unfold startBot startBotR
  split
  · rfl
  · split
    · rfl
    · split
      · rfl
      · rfl

lemma startBot_of_has (launchOk : BotRow → Bool) (s : SeqState) (row : BotRow)
    (h : mapHas s.registry row.id = true) : startBot launchOk s row = s := by
  simp [startBot_eq, h, ite_self]

lemma keysNodup_startBot (launchOk : BotRow → Bool) (s : SeqState)
    (row : BotRow) (h : keysNodup s.registry) :
    keysNodup (startBot launchOk s row).registry := by
  rw [startBot_eq]
  split
  · exact h
  · split
    · exact h
    · split
      · exact keysNodup_mapSet _ _ _ h
      · exact h

lemma keysNodup_stopBot ( st : Bool) (s : SeqState) (botId : Nat)
    (h : keysNodup s.registry) : keysNodup (stopBot st s botId).registry := by
  unfold stopBot
  split
  · exact keysNodup_mapDelete _ _ h
  · exact h

lemma keysNodup_applyOp (launchOk : BotRow → Bool) (s : SeqState) (o : Op)
    (h : keysNodup s.registry) : keysNodup (applyOp launchOk s o).registry := by
  cases o with
  | start row => exact keysNodup_startBot launchOk s row h
  | stop botId st => exact keysNodup_stopBot st s botId h

lemma keysNodup_runOps (launchOk : BotRow → Bool) (ops : List Op)
    (s : SeqState) (h : keysNodup s.registry) :
    keysNodup (runOps launchOk s ops).registry := by
  induction ops generalizing s with
  | nil => exact h
  | cons o rest ih =>
    exact ih (applyOp launchOk s o) (keysNodup_applyOp launchOk s o h)

lemma mapHas_startBot_imp (launchOk : BotRow → Bool) (s : SeqState)
    (row : BotRow) (k : Nat)
    (h : mapHas (startBot launchOk s row).registry k = true) :
    mapHas s.registry k = true ∨ k = row.id := by
  rw [startBot_eq] at h
  revert h
  split
  · exact fun h => Or.inl h
  · split
    · exact fun h => Or.inl h
    · split
      · intro h
        have hm := (mapHas_iff_mem _ _).1 h
        rcases mem_keys_mapSet _ _ _ _ hm with hk | hk
        · exact Or.inl ((mapHas_iff_mem _ _).2 hk)
        · exact Or.inr hk
      · exact fun h => Or.inl h

lemma mapHas_runStarts_imp (launchOk : BotRow → Bool) (rows : List BotRow)
    (s : SeqState) (k : Nat)
    (h : mapHas (runOps launchOk s (rows.map Op.start)).registry k = true) :
    mapHas s.registry k = true ∨ k ∈ rows.map (fun r => r.id) := by
  induction rows generalizing s with
  | nil => exact Or.inl h
  | cons r rest ih =>
    rcases ih (startBot launchOk s r) h with h1 | h1
    · rcases mapHas_startBot_imp launchOk s r k h1 with h2 | h2
      · exact Or.inl h2
      · exact Or.inr (by simp [h2])
    · exact Or.inr (by simp [h1])

lemma authorized_iff (secret : String) (pw ow : Option String) (so : String) :
    authorized secret pw ow so = true ↔ (pw = some secret ∨ ow = some so) := by
  simp [authorized]

lemma authorized_false_iff (secret : String) (pw ow : Option String)
    (so : String) :
    authorized secret pw ow so = false ↔
      ¬(pw = some secret ∨ ow = some so) := by
  rw [← authorized_iff secret pw ow so]
  cases authorized secret pw ow so <;> simp

lemma subKey_self (r : SubRow) : subKey r r.bot_id r.telegram_id = true := by
  simp [subKey]

lemma filter_map_upsert (b : Nat) (t : String) (r : SubRow)
    (hk : subKey r b t = true) (l : List SubRow) :
    (l.map (fun a => if subKey a b t then r else a)).filter
        (fun a => subKey a b t) =
      List.replicate (countSubKey l b t) r := by
  induction l with
  | nil => rfl
  | cons a rest ih =>
    unfold countSubKey at ih ⊢
    cases hsk : subKey a b t with
    | true => simpa [hsk, hk, List.filter_cons, List.replicate_succ] using ih
    | false => simpa [hsk, List.filter_cons] using ih

lemma countSubKey_pos_of_any (l : List SubRow) (b : Nat) (t : String)
    (h : l.any (fun a => subKey a b t) = true) : 1 ≤ countSubKey l b t := by
  rw [List.any_eq_true] at h
  rcases h with ⟨a, ha, hk⟩
  unfold countSubKey
  have : a ∈ l.filter (fun x => subKey x b t) := List.mem_filter.2 ⟨ha, hk⟩
  exact List.length_pos_of_mem this

lemma upsert_filter_eq (l : List SubRow) (r : SubRow)
    (h : countSubKey l r.bot_id r.telegram_id ≤ 1) :
    (upsertBotUser l r).filter
        (fun a => subKey a r.bot_id r.telegram_id) = [r] := by
  unfold upsertBotUser
  cases hany : l.any (fun a => subKey a r.bot_id r.telegram_id) with
  | true =>
    simp only [if_true]
    rw [filter_map_upsert r.bot_id r.telegram_id r (subKey_self r) l]
    have h1 := countSubKey_pos_of_any l r.bot_id r.telegram_id hany
    have : countSubKey l r.bot_id r.telegram_id = 1 := le_antisymm h h1
    rw [this]
    rfl
  | false =>
    rw [if_neg (by simp)]
    rw [List.filter_append]
    have hnil : l.filter (fun a => subKey a r.bot_id r.telegram_id) = [] := by
      rw [List.filter_eq_nil_iff]
      intro a ha hk
      rw [List.any_eq_false] at hany
      exact hany a ha hk
    rw [hnil]
    simp [List.filter_cons, subKey_self r]

lemma countSubKey_upsert (l : List SubRow) (r : SubRow)
    (h : countSubKey l r.bot_id r.telegram_id ≤ 1) :
    countSubKey (upsertBotUser l r) r.bot_id r.telegram_id = 1 := by
  unfold countSubKey
  rw [upsert_filter_eq l r h]
  rfl

lemma find?_append_of_none {α : Type} (p : α → Bool) (l1 l2 : List α)
    (h : l1.find? p = none) : (l1 ++ l2).find? p = l2.find? p := by
  induction l1 with
  | nil => rfl
  | cons a t ih =>
    cases hpa : p a with
    | true => simp [List.find?_cons, hpa] at h
    | false =>
      simp only [List.find?_cons, hpa] at h
      simp only [List.cons_append, List.find?_cons, hpa]
      exact ih h

lemma subscribeHandler_bot_users (botRow : BotRow) (db : Db) (u : TgUser) :
    (subscribeHandler botRow db u).db.bot_users =
      upsertBotUser db.bot_users
        ⟨botRow.id, toString u.id, u.username.getD "", u.first_name.getD "",
         u.last_name.getD ""⟩ := by
  cases h : botRow.notify_new_user <;> simp [subscribeHandler, h]

lemma subscribeHandler_notifs_len (botRow : BotRow) (db : Db) (u : TgUser) :
    (subscribeHandler botRow db u).db.notifications.length =
      db.notifications.length + (if botRow.notify_new_user then 1 else 0) := by
  cases h : botRow.notify_new_user <;> simp [subscribeHandler, h]

lemma subscribeHandler_reminder (botRow : BotRow) (db : Db) (u : TgUser) :
    (subscribeHandler botRow db u).reminder =
      match botRow.force_join_channel with
      | some c =>
          if c == "" then none
          else some ("Please join this channel first: " ++ c)
      | none => none := by
  cases h : botRow.notify_new_user <;> simp [subscribeHandler, h]

lemma registry_setPhase (s : CState) (t : Tid) (p : Phase) :
    (setPhase s t p).registry = s.registry := by
  cases t <;> rfl

lemma keysNodup_stepCheck (row : BotRow) (s : CState) (t : Tid)
    (h : keysNodup s.registry) : keysNodup (stepCheck row s t).registry := by
  unfold stepCheck
  split
  · split
    · rw [registry_setPhase]
      exact h
    · split
      · rw [registry_setPhase]
        exact h
      · rw [registry_setPhase]
        exact h
  · exact h

lemma keysNodup_stepResume (launchOk : Bool) (row : BotRow) (s : CState)
    (t : Tid) (h : keysNodup s.registry) :
    keysNodup (stepResume launchOk row s t).registry := by
  unfold stepResume
  split
  · split
    · rw [registry_setPhase]
      exact keysNodup_mapSet _ _ _ h
    · rw [registry_setPhase]
      exact h
  · exact h

lemma keysNodup_runSched (launchOk : Bool) (row : BotRow) (sched : List CStep)
    (s : CState) (h : keysNodup s.registry) :
    keysNodup (runSched launchOk row s sched).registry := by
  induction sched generalizing s with
  | nil => exact h
  | cons step rest ih =>
    cases step with
    | check t => exact ih (stepCheck row s t) (keysNodup_stepCheck row s t h)
    | resume t =>
        exact ih (stepResume launchOk row s t)
          (keysNodup_stepResume launchOk row s t h)

/-! ## Claim theorems -/

/-- C1 counterexample.  Refutes: "when start is invoked twice concurrently
for the same id, exactly one running adapter instance results … at no point
do two live adapter instances exist for one bot id".  Under the interleaving
`raceSched` — both invocations of `startBot` for bot 1 execute the
`botInstances.has` check before either `bot.launch()` has resolved, which the
single suspension point at line 93 of src/unnamed/part_001 permits — both
checks pass, both adapters launch, and the final state has two live adapter
instances for bot id 1 (the `Map` retains a single, last-written entry). -/
theorem concurrent_start_two_live_cex :
    (runSched true rowA cInit raceSched).live = 2 ∧
    countId (runSched true rowA cInit raceSched).registry 1 = 1 ∧
    (runSched true rowA cInit raceSched).p1 = Phase.finished ∧
    (runSched true rowA cInit raceSched).p2 = Phase.finished := by
  refine ⟨rfl, rfl, rfl, rfl⟩

/-- C1 (amended): a duplicate concurrent `start` call for the same id is
absorbed — yielding exactly one running adapter instance — only when the
second call's registered-check runs after the first call's registry
insertion (the serialized interleaving `serialSched`); when both calls pass
the check before either inserts, two adapters go live.  The registry itself
holds at most one entry per bot id under every interleaving. -/
theorem concurrent_start_amended :
    (∀ (launchOk : Bool) (row : BotRow) (sched : List CStep) (k : Nat),
        countId (runSched launchOk row cInit sched).registry k ≤ 1) ∧
    (runSched true rowA cInit serialSched).live = 1 ∧
    countId (runSched true rowA cInit serialSched).registry 1 = 1 ∧
    (runSched true rowA cInit serialSched).p2 = Phase.finished := by
  refine ⟨?_, rfl, rfl, rfl⟩
  intro launchOk row sched k
  apply countId_le_one_of_nodup
  apply keysNodup_runSched
  exact List.nodup_nil

/-- C3: `stopBot` is a no-op when no instance is registered; otherwise it
removes the registry entry whether or not `inst.bot.stop()` throws, so
`mapGet` afterwards is always `none`; consequently a later `startBot` for the
same id is not blocked by a stale entry; and the disable path of
`POST /api/bots/:id/toggle` reaches the same guarantee. -/
theorem stop_removes_unconditionally :
    (∀ ( st : Bool) (s : SeqState) (botId : Nat),
        (mapHas s.registry botId = false → stopBot st s botId = s) ∧
        mapGet (stopBot st s botId).registry botId = none) ∧
    (∀ (secret : String) (launchOk : BotRow → Bool) ( st : Bool)
        (s : SeqState) (db : Db) (botId : Nat) (pw ow : Option String)
        (row : BotRow), dbGetBot db botId = some row →
        authorized secret pw ow row.owner = true →
        mapGet ((toggleHandler secret launchOk st s db botId false pw ow).1).registry
          botId = none) := by
  have core : ∀ ( st : Bool) (s : SeqState) (botId : Nat),
      (mapHas s.registry botId = false → stopBot st s botId = s) ∧
      mapGet (stopBot st s botId).registry botId = none := by
    intro st s botId
    constructor
    · intro h
      unfold stopBot
      rw [h]
      simp
    · unfold stopBot
      cases h : mapHas s.registry botId with
      | true =>
        rw [if_pos rfl]
        exact mapGet_mapDelete s.registry botId
      | false =>
        rw [if_neg (by simp)]
        exact mapGet_eq_none_of_not_has s.registry botId h
  constructor
  · exact core
  · intro secret launchOk st s db botId pw ow row hrow hauth
    unfold toggleHandler
    rw [hrow]
    simp only [hauth, if_true]
    exact (core st s botId).2

/-- C3 witness: stopping bot 1 while its shutdown call throws still clears
the entry, and stopping an unregistered bot is a no-op. -/
theorem stop_removes_unconditionally_w :
    mapGet (stopBot true regOne 1).registry 1 = none ∧
    stopBot false seqInit 2 = seqInit := by
  exact ⟨(stop_removes_unconditionally.1 true regOne 1).2,
         (stop_removes_unconditionally.1 false seqInit 2).1 (by decide)⟩

/-- C4: under sequential execution of any list of start/stop operations from
the empty registry, at most one instance exists per bot id at every point
(every intermediate state is itself `runOps` of a prefix), and `startBot` for
an id that is already registered returns the state unchanged — same registry
and no new adapter constructed. -/
theorem registry_unique_start_idempotent :
    (∀ (launchOk : BotRow → Bool) (ops : List Op) (k : Nat),
        countId ((runOps launchOk seqInit ops).registry) k ≤ 1) ∧
    (∀ (launchOk : BotRow → Bool) (s : SeqState) (row : BotRow),
        mapHas s.registry row.id = true → startBot launchOk s row = s) := by
  constructor
  · intro launchOk ops k
    apply countId_le_one_of_nodup
    apply keysNodup_runOps
    exact List.nodup_nil
  · intro launchOk s row h
    exact startBot_of_has launchOk s row h

/-- C4 witness: starting bot 1 while it is registered leaves the state — in
particular the adapter-construction count — unchanged, and a concrete
start/stop/start sequence keeps at most one entry for id 1. -/
theorem registry_unique_start_idempotent_w :
    startBot (fun _ => true) regOne rowA = regOne ∧
    countId ((runOps (fun _ => true) seqInit
        [Op.start rowA, Op.stop 1 false, Op.start rowA]).registry) 1 ≤ 1 := by
  exact ⟨registry_unique_start_idempotent.2 (fun _ => true) regOne rowA (by decide),
         registry_unique_start_idempotent.1 (fun _ => true)
           [Op.start rowA, Op.stop 1 false, Op.start rowA] 1⟩

/-- C2 counterexample.  Refutes: "the failure is surfaced to the caller as a
StartError::LaunchFailed result".  With an environment in which the launch of
the freshly created bot rejects, `POST /api/bots` still answers with the
success response `{ bot: data }` (no error of any kind), because `startBot`
catches the rejection at lines 96-98 of src/unnamed/part_001 and resolves
normally.  No instance is registered and the stored row stays enabled. -/
theorem create_launch_failure_swallowed_cex :
    launchAlwaysFails
        (mkBotPayload 1 "badtoken" "alice" none none none none none) = false ∧
    createFailRun.2.2 =
      ApiResp.okBot (mkBotPayload 1 "badtoken" "alice" none none none none none) ∧
    createFailRun.1.registry = [] ∧
    (mkBotPayload 1 "badtoken" "alice" none none none none none).enabled = true := by
  refine ⟨rfl, ?_, ?_, rfl⟩ <;> rfl

/-- C2 (amended): when the adapter launch of a newly created bot fails,
`startBot` registers no instance and the bot's stored row remains enabled
with no running instance; the failure however is swallowed inside `startBot`
(outcome `launchFailed` is an ordinary return, not an error), and the create
endpoint responds with the success payload, so no `LaunchFailed` error
reaches the caller; a retry happens only on an explicit later request. -/
theorem launch_failure_no_instance_amended (launchOk : BotRow → Bool)
    (s : SeqState) (db : Db) (newId : Nat) (tk ow : String)
    (title fjc emoji : Option String) (nnu re : Option Bool)
    (htk : ¬(tk = "")) (hfree : mapHas s.registry newId = false)
    (hdbfree : dbGetBot db newId = none)
    (hfail : launchOk (mkBotPayload newId tk ow title fjc emoji nnu re) = false)
    (how : ¬(ow = "")) :
    (startBotR launchOk s (mkBotPayload newId tk ow title fjc emoji nnu re)).2 =
      StartOutcome.launchFailed ∧
    (createBotHandler launchOk s db newId (some tk) (some ow) title fjc emoji
        nnu re).1.registry = s.registry ∧
    mapHas (createBotHandler launchOk s db newId (some tk) (some ow) title fjc
        emoji nnu re).1.registry newId = false ∧
    dbGetBot (createBotHandler launchOk s db newId (some tk) (some ow) title
        fjc emoji nnu re).2.1 newId =
      some (mkBotPayload newId tk ow title fjc emoji nnu re) ∧
    (mkBotPayload newId tk ow title fjc emoji nnu re).enabled = true ∧
    (createBotHandler launchOk s db newId (some tk) (some ow) title fjc emoji
        nnu re).2.2 =
      ApiResp.okBot (mkBotPayload newId tk ow title fjc emoji nnu re) := by
  have htk' : (tk == "") = false := by simp [htk]
  have how' : (ow == "") = false := by simp [how]
  have hid : (mkBotPayload newId tk ow title fjc emoji nnu re).id = newId := rfl
  have htok : (mkBotPayload newId tk ow title fjc emoji nnu re).token = tk := rfl
  have hstart : startBotR launchOk s
      (mkBotPayload newId tk ow title fjc emoji nnu re) =
      ({ s with constructedAdapters := s.constructedAdapters + 1 },
       StartOutcome.launchFailed) := by
    unfold startBotR
    rw [htok, htk']
    rw [if_neg (by simp)]
    rw [hid, hfree]
    rw [if_neg (by simp)]
    rw [hfail]
    rw [if_neg (by simp)]
  have hcreate : createBotHandler launchOk s db newId (some tk) (some ow)
      title fjc emoji nnu re =
      ({ s with constructedAdapters := s.constructedAdapters + 1 },
       { db with bots := db.bots ++ [mkBotPayload newId tk ow title fjc emoji nnu re] },
       ApiResp.okBot (mkBotPayload newId tk ow title fjc emoji nnu re)) := by
    unfold createBotHandler
    dsimp only
    rw [htk', how']
    rw [if_neg (by simp)]
    unfold startBot
    rw [hstart]
  refine ⟨?_, ?_, ?_, ?_, rfl, ?_⟩
  · rw [hstart]
  · rw [hcreate]
  · rw [hcreate]
    exact hfree
  · rw [hcreate]
    unfold dbGetBot
    have : db.bots.find? (fun b => b.id == newId) = none := hdbfree
    rw [find?_append_of_none _ _ _ this]
    simp [List.find?_cons, hid]
  · rw [hcreate]

/-- C2 witness: the amended statement at the concrete failing-launch run. -/
theorem launch_failure_no_instance_amended_w :
    (startBotR launchAlwaysFails seqInit
        (mkBotPayload 1 "badtoken" "alice" none none none none none)).2 =
      StartOutcome.launchFailed ∧
    createFailRun.1.registry = seqInit.registry ∧
    mapHas createFailRun.1.registry 1 = false ∧
    dbGetBot createFailRun.2.1 1 =
      some (mkBotPayload 1 "badtoken" "alice" none none none none none) ∧
    (mkBotPayload 1 "badtoken" "alice" none none none none none).enabled = true ∧
    createFailRun.2.2 =
      ApiResp.okBot (mkBotPayload 1 "badtoken" "alice" none none none none none) := by
  exact launch_failure_no_instance_amended launchAlwaysFails seqInit dbEmpty 1
    "badtoken" "alice" none none none none none (by decide) (by decide) rfl rfl
    (by decide)

/-- C5: given a non-empty message, an existing bot row and passing
authorization, the broadcast endpoint fails with the not-running response
(and appends nothing) when no instance is registered; otherwise it attempts
a send to every subscriber of the bot, counts only the successful sends,
appends exactly one broadcast record — whatever the counts, including zero
subscribers — and answers with `attempted` = number of subscribers and
`sent` = number of successful sends. -/
theorem broadcast_counts_and_record (secret : String) (sendOk : String → Bool)
    (s : SeqState) (db : Db) (botId : Nat) (msg : String)
    (pw ow : Option String) (row : BotRow)
    (hmsg : ¬(msg = "")) (hrow : dbGetBot db botId = some row)
    (hauth : authorized secret pw ow row.owner = true) :
    (mapHas s.registry botId = false →
      broadcastHandler secret sendOk s db botId msg pw ow =
        (db, ApiResp.notRunning)) ∧
    (mapHas s.registry botId = true →
      broadcastHandler secret sendOk s db botId msg pw ow =
        ({ db with broadcasts := db.broadcasts ++ [⟨botId, msg⟩] },
         ApiResp.okCounts
           (db.bot_users.filter (fun u => u.bot_id == botId)).length
           ((db.bot_users.filter (fun u => u.bot_id == botId)).filter
              (fun u => sendOk u.telegram_id)).length)) := by
  have hmsg' : (msg == "") = false := by simp [hmsg]
  constructor
  · intro habs
    unfold broadcastHandler
    rw [hmsg']
    rw [if_neg (by simp)]
    rw [hrow]
    simp only [hauth, if_true, habs]
    rw [if_neg (by simp)]
  · intro hhas
    unfold broadcastHandler
    rw [hmsg']
    rw [if_neg (by simp)]
    rw [hrow]
    simp only [hauth, if_true, hhas]

/-- C5 witness: the spec's scenario — three subscribers, the send to one of
them throws — yields `attempted = 3`, `sent = 2`, and the broadcast record
is still appended. -/
theorem broadcast_counts_and_record_w :
    broadcastHandler "secret" sendFails20 regOne dbThree 1 "hello" none
        (some "alice") =
      ({ dbThree with broadcasts := dbThree.broadcasts ++ [⟨1, "hello"⟩] },
       ApiResp.okCounts 3 2) := by
  have h := (broadcast_counts_and_record "secret" sendFails20 regOne dbThree 1
    "hello" none (some "alice") cfgReact (by decide) (by decide)
    (by decide)).2 (by decide)
  rw [h]
  rfl

/-- C6: the message handler re-reads the bot's row from the store; given
that re-read returns a row whose configured emoji is non-empty (an empty or
null emoji is JavaScript-falsy and falls back to the default '❤️'), the
handler replies with the configured `reaction_emoji` precisely when
`reaction_enabled` is currently true; and a failed send for one message
never stops later messages: every message of a stream is processed. -/
theorem reaction_iff_enabled_fresh (db : Db) (botId : Nat) (fresh : BotRow)
    (hread : dbGetBot db botId = some fresh)
    (hemoji : ¬(fresh.reaction_emoji = "")) :
    ((messageHandler db botId = some fresh.reaction_emoji) ↔
      fresh.reaction_enabled = true) ∧
    (∀ (sendOk : Nat → Bool) (msgs : List Nat),
      (processMessages db botId sendOk msgs).length = msgs.length) := by
  have hemoji' : (fresh.reaction_emoji == "") = false := by simp [hemoji]
  constructor
  · unfold messageHandler
    rw [hread]
    dsimp only
    cases hen : fresh.reaction_enabled with
    | true =>
      rw [if_pos rfl]
      rw [hemoji']
      rw [if_neg (by simp)]
      simp
    | false =>
      rw [if_neg (by simp)]
      simp
  · intro sendOk msgs
    unfold processMessages
    rw [List.length_map]

/-- C6 witness: for the stored row of bot 1 (emoji 👍, reaction enabled) the
reply is exactly the configured emoji, and a three-message stream with a
failing send still processes all three messages. -/
theorem reaction_iff_enabled_fresh_w :
    ((messageHandler dbReact 1 = some cfgReact.reaction_emoji) ↔
      cfgReact.reaction_enabled = true) ∧
    (processMessages dbReact 1 (fun m => !(m == 2)) [1, 2, 3]).length = 3 := by
  have h := reaction_iff_enabled_fresh dbReact 1 cfgReact (by decide) (by decide)
  exact ⟨h.1, h.2 (fun m => !(m == 2)) [1, 2, 3]⟩

/-- C7: two subscribe events for the same `(bot_id, telegram_id)` key — in a
store satisfying the key-uniqueness invariant of the schema — leave exactly
one subscriber row for that key, carrying the second event's username,
first name and last name; and each event appends one notification record
precisely when `notify_new_user` is set for the bot (two events, two
records), and none otherwise. -/
theorem subscribe_upsert_once (botRow : BotRow) (db : Db) (u1 u2 : TgUser)
    (hid : u1.id = u2.id)
    (hinv : countSubKey db.bot_users botRow.id (toString u2.id) ≤ 1) :
    (subscribeHandler botRow (subscribeHandler botRow db u1).db
        u2).db.bot_users.filter
        (fun a => subKey a botRow.id (toString u2.id)) =
      [⟨botRow.id, toString u2.id, u2.username.getD "", u2.first_name.getD "",
        u2.last_name.getD ""⟩] ∧
    countSubKey (subscribeHandler botRow (subscribeHandler botRow db u1).db
        u2).db.bot_users botRow.id (toString u2.id) = 1 ∧
    (subscribeHandler botRow (subscribeHandler botRow db u1).db
        u2).db.notifications.length =
      db.notifications.length + (if botRow.notify_new_user then 2 else 0) := by
  have hkey : toString u1.id = toString u2.id := by rw [hid]
  have hb1 := subscribeHandler_bot_users botRow db u1
  have hb2 := subscribeHandler_bot_users botRow (subscribeHandler botRow db u1).db u2
  have hcount1 : countSubKey (subscribeHandler botRow db u1).db.bot_users
      botRow.id (toString u2.id) = 1 := by
    rw [hb1, ← hkey]
    have h9 : countSubKey db.bot_users botRow.id (toString u1.id) ≤ 1 := by
      rw [hkey]
      exact hinv
    exact countSubKey_upsert db.bot_users
      ⟨botRow.id, toString u1.id, u1.username.getD "", u1.first_name.getD "",
       u1.last_name.getD ""⟩ h9
  constructor
  · rw [hb2]
    exact upsert_filter_eq (subscribeHandler botRow db u1).db.bot_users
      ⟨botRow.id, toString u2.id, u2.username.getD "", u2.first_name.getD "",
       u2.last_name.getD ""⟩ (le_of_eq hcount1)
  constructor
  · rw [hb2]
    exact countSubKey_upsert (subscribeHandler botRow db u1).db.bot_users
      ⟨botRow.id, toString u2.id, u2.username.getD "", u2.first_name.getD "",
       u2.last_name.getD ""⟩ (le_of_eq hcount1)
  · have hn1 := subscribeHandler_notifs_len botRow db u1
    have hn2 := subscribeHandler_notifs_len botRow (subscribeHandler botRow db u1).db u2
    rw [hn2, hn1]
    cases botRow.notify_new_user <;> simp

/-- C7 witness: recording Bob twice — with updated profile fields the second
time — against an empty store leaves exactly one row for the key, carrying
the latest fields, and (this bot has `notify_new_user = false`) adds no
notification records. -/
theorem subscribe_upsert_once_w :
    (subscribeHandler cfgReact (subscribeHandler cfgReact dbEmpty uBob).db
        uBob2).db.bot_users.filter
        (fun a => subKey a cfgReact.id (toString uBob2.id)) =
      [⟨cfgReact.id, toString uBob2.id, uBob2.username.getD "",
        uBob2.first_name.getD "", uBob2.last_name.getD ""⟩] ∧
    countSubKey (subscribeHandler cfgReact
        (subscribeHandler cfgReact dbEmpty uBob).db uBob2).db.bot_users
        cfgReact.id (toString uBob2.id) = 1 ∧
    (subscribeHandler cfgReact (subscribeHandler cfgReact dbEmpty uBob).db
        uBob2).db.notifications.length =
      dbEmpty.notifications.length +
        (if cfgReact.notify_new_user then 2 else 0) :=
  subscribe_upsert_once cfgReact dbEmpty uBob uBob2 rfl (by decide)

/-- C8: for each mutating route — toggle, settings update, force-join
update, broadcast — on an existing bot row (and, for broadcast, a non-empty
message), the request is rejected with the forbidden response exactly when
the supplied admin password does not equal the process-wide secret AND the
supplied owner does not equal the stored owner; granted otherwise,
independent of any other state. -/
theorem auth_owner_or_admin (secret : String) (s : SeqState) (db : Db)
    (botId : Nat) (row : BotRow) (pw ow : Option String)
    (hrow : dbGetBot db botId = some row) :
    (∀ (launchOk : BotRow → Bool) ( st enable : Bool),
       ((toggleHandler secret launchOk st s db botId enable pw ow).2.2 =
          ApiResp.forbidden ↔ ¬(pw = some secret ∨ ow = some row.owner))) ∧
    (∀ (f : BotRow → BotRow),
       ((settingsHandler secret db botId pw ow (some f)).2 =
          ApiResp.forbidden ↔ ¬(pw = some secret ∨ ow = some row.owner))) ∧
    (∀ (chan : Option String),
       ((forceJoinHandler secret db botId chan pw ow).2 =
          ApiResp.forbidden ↔ ¬(pw = some secret ∨ ow = some row.owner))) ∧
    (∀ (sendOk : String → Bool) (msg : String), ¬(msg = "") →
       ((broadcastHandler secret sendOk s db botId msg pw ow).2 =
          ApiResp.forbidden ↔ ¬(pw = some secret ∨ ow = some row.owner))) := by
  cases hauth : authorized secret pw ow row.owner with
  | true =>
    have hgrant := (authorized_iff secret pw ow row.owner).1 hauth
    refine ⟨?_, ?_, ?_, ?_⟩
    · intro launchOk st enable
      cases enable <;> simp [toggleHandler, hrow, hauth, hgrant]
    · intro f
      simp [settingsHandler, hrow, hauth, hgrant]
    · intro chan
      simp [forceJoinHandler, hrow, hauth, hgrant]
    · intro sendOk msg hm
      have hm' : (msg == "") = false := by simp [hm]
      cases hreg : mapHas s.registry botId <;>
        simp [broadcastHandler, hrow, hauth, hgrant, hm', hreg]
  | false =>
    have hdeny := (authorized_false_iff secret pw ow row.owner).1 hauth
    refine ⟨?_, ?_, ?_, ?_⟩
    · intro launchOk st enable
      cases enable <;> simp [toggleHandler, hrow, hauth, hdeny]
    · intro f
      simp [settingsHandler, hrow, hauth, hdeny]
    · intro chan
      simp [forceJoinHandler, hrow, hauth, hdeny]
    · intro sendOk msg hm
      have hm' : (msg == "") = false := by simp [hm]
      simp [broadcastHandler, hrow, hauth, hdeny, hm']

/-- C8 witness: a toggle with the matching owner and no admin password is
granted; a broadcast with only the correct admin password is granted; a
settings update with neither matching credential is forbidden. -/
theorem auth_owner_or_admin_w :
    ((toggleHandler "secret" (fun _ => true) false regOne dbReact 1 true none
        (some "alice")).2.2 = ApiResp.forbidden ↔
      ¬(none = some "secret" ∨ some "alice" = some cfgReact.owner)) ∧
    ((broadcastHandler "secret" sendFails20 regOne dbReact 1 "hi"
        (some "secret") none).2 = ApiResp.forbidden ↔
      ¬(some "secret" = some "secret" ∨ none = some cfgReact.owner)) ∧
    ((settingsHandler "secret" dbReact 1 (some "wrong") (some "eve")
        (some disableReaction)).2 = ApiResp.forbidden ↔
      ¬(some "wrong" = some "secret" ∨ some "eve" = some cfgReact.owner)) :=
  ⟨(auth_owner_or_admin "secret" regOne dbReact 1 cfgReact none (some "alice")
      (by decide)).1 (fun _ => true) false true,
   (auth_owner_or_admin "secret" regOne dbReact 1 cfgReact (some "secret")
      none (by decide)).2.2.2 sendFails20 "hi" (by decide),
   (auth_owner_or_admin "secret" regOne dbReact 1 cfgReact (some "wrong")
      (some "eve") (by decide)).2.1 disableReaction⟩

/-- C9: the startup routine issues exactly one start call per stored config
with `enabled = true` (its ops list contains a start for a row iff that row
is a stored enabled config — and no stop at all), and, starting from the
empty cold-start registry with unique config ids, every `enabled = false`
config ends up absent from the registry. -/
theorem reconcile_starts_enabled_only (launchOk : BotRow → Bool) (db : Db) :
    (∀ op ∈ (db.bots.filter (fun b => b.enabled)).map Op.start,
       ∃ r ∈ db.bots, r.enabled = true ∧ op = Op.start r) ∧
    (∀ r ∈ db.bots, r.enabled = true →
       Op.start r ∈ (db.bots.filter (fun b => b.enabled)).map Op.start) ∧
    loadAndStartEnabledBots launchOk db seqInit =
      runOps launchOk seqInit
        ((db.bots.filter (fun b => b.enabled)).map Op.start) ∧
    (∀ row ∈ db.bots, row.enabled = false →
       (db.bots.map (fun b => b.id)).Nodup →
       mapHas (loadAndStartEnabledBots launchOk db seqInit).registry row.id =
         false) := by
  refine ⟨?_, ?_, rfl, ?_⟩
  · intro op hop
    rw [List.mem_map] at hop
    rcases hop with ⟨b, hb, rfl⟩
    rw [List.mem_filter] at hb
    exact ⟨b, hb.1, hb.2, rfl⟩
  · intro r hr hen
    rw [List.mem_map]
    exact ⟨r, List.mem_filter.2 ⟨hr, hen⟩, rfl⟩
  · intro row hr hdis hnd
    cases hq : mapHas (loadAndStartEnabledBots launchOk db seqInit).registry
        row.id with
    | false => rfl
    | true =>
      exfalso
      unfold loadAndStartEnabledBots at hq
      rcases mapHas_runStarts_imp launchOk (db.bots.filter (fun b => b.enabled))
          seqInit row.id hq with h1 | h1
      · simp [seqInit, mapHas] at h1
      · rw [List.mem_map] at h1
        rcases h1 with ⟨r, hrf, hrid⟩
        rw [List.mem_filter] at hrf
        have hne : r = row :=
          List.inj_on_of_nodup_map hnd hrf.1 hr hrid
        rw [hne] at hrf
        rw [hdis] at hrf
        exact Bool.noConfusion hrf.2

/-- C9 witness: with one enabled and one disabled config (distinct ids), the
startup routine's ops are starts of enabled configs only, and the disabled
config's id is absent from the registry afterwards. -/
theorem reconcile_starts_enabled_only_w :
    Op.start cfgReact ∈
      ((Db.mk [cfgReact, rowOff] [] [] []).bots.filter
        (fun b => b.enabled)).map Op.start ∧
    mapHas (loadAndStartEnabledBots (fun _ => true)
        (Db.mk [cfgReact, rowOff] [] [] []) seqInit).registry rowOff.id =
      false := by
  have h := reconcile_starts_enabled_only (fun _ => true)
    (Db.mk [cfgReact, rowOff] [] [] [])
  refine ⟨?_, ?_⟩
  · exact h.2.1 cfgReact (by simp) rfl
  · exact h.2.2.2 rowOff (by simp) rfl (by decide)

/-- C10: the subscribe handler's observable decisions depend only on the
configuration snapshot closed over at launch: for any replacement of the
stored `bots` table its reminder and its subscriber-row update are
unchanged, and whether a notification is appended is a function of the
snapshot's `notify_new_user` alone; a settings update touches only the
`bots` table, so it cannot affect them until the instance is relaunched
with a fresh snapshot.  By contrast the reaction (message) handler re-reads
the `bots` table per message: the same settings update that leaves the
subscribe handler's reminder unchanged flips the reaction reply from the
configured emoji to none. -/
theorem subscribe_snapshot_vs_reaction_fresh :
    (∀ (inst : BotRow) (db : Db) (bots2 : List BotRow) (u : TgUser),
       (subscribeHandler inst { db with bots := bots2 } u).reminder =
         (subscribeHandler inst db u).reminder ∧
       (subscribeHandler inst { db with bots := bots2 } u).db.bot_users =
         (subscribeHandler inst db u).db.bot_users ∧
       (subscribeHandler inst db u).db.notifications.length =
         db.notifications.length +
           (if inst.notify_new_user then 1 else 0)) ∧
    (∀ (secret : String) (db : Db) (i : Nat) (pw ow : Option String)
       (f : BotRow → BotRow),
       ((settingsHandler secret db i pw ow (some f)).1).bot_users =
         db.bot_users ∧
       ((settingsHandler secret db i pw ow (some f)).1).notifications =
         db.notifications) ∧
    (messageHandler dbReact 1 = some "👍" ∧
     messageHandler dbReactOff 1 = none ∧
     (subscribeHandler cfgReact dbReactOff uBob).reminder =
       (subscribeHandler cfgReact dbReact uBob).reminder ∧
     dbReactOff.bot_users = dbReact.bot_users) := by
  refine ⟨?_, ?_, by decide, by decide, by decide, by decide⟩
  · intro inst db bots2 u
    refine ⟨?_, ?_, ?_⟩
    · rw [subscribeHandler_reminder, subscribeHandler_reminder]
    · rw [subscribeHandler_bot_users, subscribeHandler_bot_users]
    · exact subscribeHandler_notifs_len inst db u
  · intro secret db i pw ow f
    unfold settingsHandler
    dsimp only
    cases h : dbGetBot db i with
    | none => exact ⟨rfl, rfl⟩
    | some row =>
      dsimp only
      split
      · exact ⟨rfl, rfl⟩
      · exact ⟨rfl, rfl⟩

end TGBot
